import Mathlib

set_option maxHeartbeats 1000000

/-!
Verification of the session repository: the Point and Color value classes in
their language variants (namespaces geo, session_cpp and session), their JSON
serialization, and the cross-language consistency validator. C++ doubles are
modelled as exact rationals; every operation the claims touch is exact at the
values involved.
-/

/-- JSON values as produced by the nlohmann json library: strings, integer
numbers, floating point numbers (modelled as exact rationals), arrays and
ordered objects (association lists preserving insertion order). -/
inductive Json where
  | str : String → Json
  | int : Int → Json
  | num : ℚ → Json
  | arr : List Json → Json
  | obj : List (String × Json) → Json

/-- Lookup of a key in an ordered JSON object field list (first match). -/
def lookupKey : List (String × Json) → String → Option Json
  | [], _ => none
  | (k, v) :: rest, key => if k = key then some v else lookupKey rest key

/-- Lookup of a key in a JSON value; only objects have keys. -/
def Json.lookup : Json → String → Option Json
  | .obj fields, key => lookupKey fields key
  | _, _ => none

/-- Read a JSON value as a floating point number. -/
def Json.asNum : Json → Option ℚ
  | .num q => some q
  | .int i => some (i : ℚ)
  | _ => none

/-- Read a JSON value as a string. -/
def Json.asStr : Json → Option String
  | .str s => some s
  | _ => none

/-- Read a JSON value as an integer. -/
def Json.asInt : Json → Option Int
  | .int i => some i
  | _ => none

/-- Models the random GUID generators (the guid function of the session_cpp
variant and generate_uuid of the geo variant): a fresh identifier whose value
no claim depends on, represented by a fixed placeholder string. -/
def fresh_guid : String := "00000000-0000-4000-8000-000000000000"

/-- Models static_cast of an unsigned int to int in the serializers: values
below 2 to the 31 are unchanged, larger ones wrap by 2 to the 32. -/
def uintToInt (n : Nat) : Int :=
  if n < 2 ^ 31 then (n : Int) else (n : Int) - 2 ^ 32

/-- Models static_cast of an integer to unsigned int in the deserializers:
reduction modulo 2 to the 32. -/
def intToUint (i : Int) : Nat := (i % 2 ^ 32).toNat

/-- Models static_cast of a nonnegative double to unsigned int: truncation
toward zero, which on nonnegative values is the floor. -/
def castUInt (q : ℚ) : Nat := (⌊q⌋).toNat

namespace geo

/-- The geo Color class of session_cpp/src/color.h: name, guid and RGBA
components stored as unsigned int. -/
structure Color where
  name : String
  guid : String
  r : Nat
  g : Nat
  b : Nat
  a : Nat

/-- The geo Color constructor with its default arguments: name defaults to
my_color and the guid member is freshly generated. -/
def Color.make (r : Nat := 255) (g : Nat := 255) (b : Nat := 255)
    (a : Nat := 255) (name : String := "my_color") : Color :=
  ⟨name, fresh_guid, r, g, b, a⟩

/-- Color.white of session_cpp/src/color.h (geo namespace). -/
def Color.white : Color := Color.make 255 255 255 255 "white"

/-- Color.black of session_cpp/src/color.h (geo namespace): the source
constructs it from the components 255, 255, 255, 255 with name black. -/
def Color.black : Color := Color.make 255 255 255 255 "black"

/-- Color.to_float_array of session_cpp/src/color.h (geo namespace):
componentwise division by 255. -/
def Color.to_float_array (c : Color) : ℚ × ℚ × ℚ × ℚ :=
  ((c.r : ℚ) / 255, (c.g : ℚ) / 255, (c.b : ℚ) / 255, (c.a : ℚ) / 255)

/-- Color.from_float of session_cpp/src/color.h (geo namespace): multiply by
255, add one half, cast to unsigned int. -/
def Color.from_float (r g b a : ℚ) : Color :=
  Color.make (castUInt (r * 255 + 1 / 2)) (castUInt (g * 255 + 1 / 2))
    (castUInt (b * 255 + 1 / 2)) (castUInt (a * 255 + 1 / 2))

/-- Color.to_json_data of session_cpp/src/color.h (geo namespace): note the
literal string white emitted for the name key and the int casts on the
components. -/
def Color.to_json_data (c : Color) : Json :=
  .obj [("type", .str "Color"), ("guid", .str c.guid), ("name", .str "white"),
    ("r", .int (uintToInt c.r)), ("g", .int (uintToInt c.g)),
    ("b", .int (uintToInt c.b)), ("a", .int (uintToInt c.a))]

/-- Color.from_json_data of session_cpp/src/color.h (geo namespace): reads
the component, name and guid keys; a missing or ill-typed key is a failure. -/
def Color.from_json_data (data : Json) : Option Color :=
  match (data.lookup "r").bind Json.asInt, (data.lookup "g").bind Json.asInt,
      (data.lookup "b").bind Json.asInt, (data.lookup "a").bind Json.asInt,
      (data.lookup "name").bind Json.asStr,
      (data.lookup "guid").bind Json.asStr with
  | some r, some g, some b, some a, some nm, some gd =>
      some ⟨nm, gd, intToUint r, intToUint g, intToUint b, intToUint a⟩
  | _, _, _, _, _, _ => none

/-- The geo Point class of session_cpp/src/point.h, fields in declaration
order. -/
structure Point where
  guid : String
  name : String
  x : ℚ
  y : ℚ
  z : ℚ
  width : ℚ
  pointcolor : Color

/-- The geo Point constructor taking the three coordinates; the remaining
members keep their default initializers. -/
def Point.make (x y z : ℚ) : Point :=
  ⟨fresh_guid, "my_point", x, y, z, 1, Color.white⟩

/-- Point.to_json_data of session_cpp/src/point.h: an ordered object whose
discriminator key is the string type. -/
def Point.to_json_data (p : Point) : Json :=
  .obj [("type", .str "Point"), ("guid", .str p.guid), ("name", .str p.name),
    ("x", .num p.x), ("y", .num p.y), ("z", .num p.z),
    ("width", .num p.width), ("pointcolor", p.pointcolor.to_json_data)]

/-- Point.from_json_data of session_cpp/src/point.h: reads the coordinates,
guid, name, pointcolor and width keys. -/
def Point.from_json_data (data : Json) : Option Point :=
  match (data.lookup "x").bind Json.asNum, (data.lookup "y").bind Json.asNum,
      (data.lookup "z").bind Json.asNum,
      (data.lookup "guid").bind Json.asStr,
      (data.lookup "name").bind Json.asStr,
      (data.lookup "pointcolor").bind Color.from_json_data,
      (data.lookup "width").bind Json.asNum with
  | some x, some y, some z, some gd, some nm, some pc, some w =>
      some ⟨gd, nm, x, y, z, w, pc⟩
  | _, _, _, _, _, _, _ => none

end geo

namespace session

/-- The session Color class implemented in the unnamed color source file:
four double components. -/
structure Color where
  r : ℚ
  g : ℚ
  b : ℚ
  a : ℚ

/-- Color.white of the session variant: alpha channel on the 0 to 100
scale. -/
def Color.white : Color := ⟨255, 255, 255, 100⟩

/-- Color.to_float_array of the session variant: red, green and blue divided
by 255, alpha divided by 100. -/
def Color.to_float_array (c : Color) : ℚ × ℚ × ℚ × ℚ :=
  (c.r / 255, c.g / 255, c.b / 255, c.a / 100)

/-- Color.from_float of the session variant: multiply red, green and blue by
255 and alpha by 100; no rounding. -/
def Color.from_float (r g b a : ℚ) : Color :=
  ⟨r * 255, g * 255, b * 255, a * 100⟩

end session

namespace geo_impl

/-- The geo Color implementation of the unnamed color source file: RGBA
components stored as unsigned char, plus a guid; the constructor generates a
fresh guid when the given one is empty. -/
structure Color where
  r : Nat
  g : Nat
  b : Nat
  a : Nat
  guid : String

/-- The geo_impl Color constructor: an empty guid argument is replaced by a
freshly generated uuid. -/
def Color.make (r g b a : Nat) (guid : String := "") : Color :=
  ⟨r, g, b, a, if guid.isEmpty then fresh_guid else guid⟩

/-- Color.white of the geo implementation file. -/
def Color.white : Color := Color.make 255 255 255 255

/-- Color.black of the geo implementation file: components 0, 0, 0, 255. -/
def Color.black : Color := Color.make 0 0 0 255

/-- Color.to_float_array of the geo implementation file: componentwise
division by 255. -/
def Color.to_float_array (c : Color) : ℚ × ℚ × ℚ × ℚ :=
  ((c.r : ℚ) / 255, (c.g : ℚ) / 255, (c.b : ℚ) / 255, (c.a : ℚ) / 255)

end geo_impl

namespace session_cpp

/-- The session_cpp Color class of session_cpp/src/color.h: name, guid and
RGBA components stored as unsigned int. -/
structure Color where
  name : String
  guid : String
  r : Nat
  g : Nat
  b : Nat
  a : Nat

/-- The session_cpp Color constructor with its default arguments. -/
def Color.make (r : Nat := 255) (g : Nat := 255) (b : Nat := 255)
    (a : Nat := 255) (name : String := "my_color") : Color :=
  ⟨name, fresh_guid, r, g, b, a⟩

/-- Color.white of session_cpp/src/color.h. -/
def Color.white : Color := Color.make 255 255 255 255 "white"

/-- Color.black of session_cpp/src/color.h: the source constructs it from
the components 255, 255, 255, 255 with name black. -/
def Color.black : Color := Color.make 255 255 255 255 "black"

/-- Color.to_float_array of session_cpp/src/color.h: componentwise division
by 255. -/
def Color.to_float_array (c : Color) : ℚ × ℚ × ℚ × ℚ :=
  ((c.r : ℚ) / 255, (c.g : ℚ) / 255, (c.b : ℚ) / 255, (c.a : ℚ) / 255)

/-- Color.from_float of session_cpp/src/color.h: multiply by 255, add one
half, cast to unsigned int. -/
def Color.from_float (r g b a : ℚ) : Color :=
  Color.make (castUInt (r * 255 + 1 / 2)) (castUInt (g * 255 + 1 / 2))
    (castUInt (b * 255 + 1 / 2)) (castUInt (a * 255 + 1 / 2))

/-- Color.to_json_data of session_cpp/src/color.h: note the literal string
white emitted for the name key and the int casts on the components. -/
def Color.to_json_data (c : Color) : Json :=
  .obj [("type", .str "Color"), ("guid", .str c.guid), ("name", .str "white"),
    ("r", .int (uintToInt c.r)), ("g", .int (uintToInt c.g)),
    ("b", .int (uintToInt c.b)), ("a", .int (uintToInt c.a))]

/-- Color.from_json_data of session_cpp/src/color.h: reads the component,
name and guid keys; a missing or ill-typed key is a failure. -/
def Color.from_json_data (data : Json) : Option Color :=
  match (data.lookup "r").bind Json.asInt, (data.lookup "g").bind Json.asInt,
      (data.lookup "b").bind Json.asInt, (data.lookup "a").bind Json.asInt,
      (data.lookup "name").bind Json.asStr,
      (data.lookup "guid").bind Json.asStr with
  | some r, some g, some b, some a, some nm, some gd =>
      some ⟨nm, gd, intToUint r, intToUint g, intToUint b, intToUint a⟩
  | _, _, _, _, _, _ => none

/-- The session_cpp Point class of the unnamed point source file, fields in
declaration order; its pointcolor member carries the session Color used by
its float-array serialization. -/
structure Point where
  x : ℚ
  y : ℚ
  z : ℚ
  guid : String
  name : String
  pointcolor : session.Color
  width : ℚ

/-- The session_cpp Point constructor taking the three coordinates. -/
def Point.make (x y z : ℚ) : Point :=
  ⟨x, y, z, fresh_guid, "Point", session.Color.white, 1⟩

/-- Serialization of a float array as a JSON array of four numbers. -/
def floatArrayJson (t : ℚ × ℚ × ℚ × ℚ) : Json :=
  .arr [.num t.1, .num t.2.1, .num t.2.2.1, .num t.2.2.2]

/-- Point.to_json_data of the unnamed session_cpp point source file: an
object whose discriminator key is the string dtype, and whose pointcolor is
the float array of the color. -/
def Point.to_json_data (p : Point) : Json :=
  .obj [("dtype", .str "Point"), ("x", .num p.x), ("y", .num p.y),
    ("z", .num p.z), ("guid", .str p.guid), ("name", .str p.name),
    ("pointcolor", floatArrayJson p.pointcolor.to_float_array),
    ("width", .num p.width)]

end session_cpp

namespace validator

/-- Modelled from the spec: the finding kinds of the ValidationResult data
model; validator.py itself is not among the available source files, only its
documentation. A behavioral mismatch names the disagreeing language and the
numeric delta. -/
inductive Finding where
  | missingType : String → Finding
  | missingField : String → String → Finding
  | missingMethod : String → String → Finding
  | behavioralMismatch : String → ℚ → Finding
deriving DecidableEq

/-- Modelled from the spec: one entry of the Specification document, a type
name with its required field names and required method names (validator.py is
not among the available source files). -/
structure TypeSpec where
  name : String
  fields : List String
  methods : List String

/-- Modelled from the spec: one declared type of a SourceUnit, with the field
and method names the extractor found (validator.py is not among the available
source files). -/
structure DeclaredType where
  name : String
  fields : List String
  methods : List String

/-- Find the declared type of the given name in a source unit, if any. -/
def findType : List DeclaredType → String → Option DeclaredType
  | [], _ => none
  | d :: rest, t => if d.name = t then some d else findType rest t

/-- Modelled from the spec: the Structural Comparator on one required type.
A type absent from the unit is one missing-type finding; otherwise the set
differences of required fields and required methods against the present ones
become missing-field and missing-method findings, in declaration order
(validator.py is not among the available source files). -/
def compareType (ts : TypeSpec) (unit : List DeclaredType) : List Finding :=
  match findType unit ts.name with
  | none => [Finding.missingType ts.name]
  | some d =>
      (ts.fields.filter (fun f => !d.fields.contains f)).map
        (Finding.missingField ts.name)
      ++ (ts.methods.filter (fun m => !d.methods.contains m)).map
        (Finding.missingMethod ts.name)

/-- Modelled from the spec: the Structural Comparator over the whole
Specification, findings in specification declaration order (validator.py is
not among the available source files). -/
def compareStructural : List TypeSpec → List DeclaredType → List Finding
  | [], _ => []
  | ts :: rest, unit => compareType ts unit ++ compareStructural rest unit

/-- The pairs of type name and method name that are required by the
specification, whose type is present in the unit, but whose method is not:
used to state that exactly one required method is missing. -/
def missingMethodPairs : List TypeSpec → List DeclaredType → List (String × String)
  | [], _ => []
  | ts :: rest, unit =>
      (match findType unit ts.name with
        | none => []
        | some d => (ts.methods.filter (fun m => !d.methods.contains m)).map
            (fun m => (ts.name, m)))
      ++ missingMethodPairs rest unit

/-- Modelled from the spec: the exit-status decision of the Report Assembler,
zero findings give exit code 0 and one or more findings give exit code 1
(validator.py is not among the available source files). -/
def exitCode (fs : List Finding) : Nat := if fs.isEmpty then 0 else 1

/-- Modelled from the spec: two numeric results agree iff the absolute
difference is at most the tolerance (validator.py is not among the available
source files). -/
def agrees (a b tol : ℚ) : Bool := decide (|a - b| ≤ tol)

/-- Modelled from the spec: a BehavioralCase, a named scenario with an
expected literal output value and a numeric tolerance (validator.py is not
among the available source files). -/
structure BehavioralCase where
  name : String
  expected : ℚ
  tolerance : ℚ

/-- Modelled from the spec: the Behavioral Runner comparison for one case.
Each language output is compared against the expected value of the case; a
disagreeing language yields one behavioral-mismatch finding naming that
language and the numeric delta (validator.py is not among the available
source files). -/
def runBehavioralCase (c : BehavioralCase) (outputs : List (String × ℚ)) :
    List Finding :=
  outputs.filterMap (fun o =>
    if agrees o.2 c.expected c.tolerance then none
    else some (Finding.behavioralMismatch o.1 |o.2 - c.expected|))

/-- The point_distance behavioral case of the spec: expected value 5 with
tolerance ten to the minus ninth. -/
def pointDistanceCase : BehavioralCase :=
  ⟨"point_distance", 5, 1 / 1000000000⟩

/-- Modelled from the spec: the configuration document, file paths listed per
language together with the specification file path (validator.py is not
among the available source files). -/
structure Config where
  files : List (String × List String)
  schemaFile : String

/-- Lookup of the file list of a language in the configuration. -/
def lookupFiles : List (String × List String) → String → Option (List String)
  | [], _ => none
  | (l, fs) :: rest, lang => if l = lang then some fs else lookupFiles rest lang

/-- Modelled from the spec: the add operation, appending a path to the file
list of a language; it fails when the path is already present (validator.py
is not among the available source files). -/
def addPath (cfg : Config) (lang path : String) : Option Config :=
  match lookupFiles cfg.files lang with
  | none => none
  | some fs =>
      if path ∈ fs then none
      else some ⟨cfg.files.map
        (fun e => if e.1 = lang then (e.1, e.2 ++ [path]) else e),
        cfg.schemaFile⟩

/-- Modelled from the spec: the remove operation, removing a path from the
file list of a language; it fails when the path is absent (validator.py is
not among the available source files). -/
def removePath (cfg : Config) (lang path : String) : Option Config :=
  match lookupFiles cfg.files lang with
  | none => none
  | some fs =>
      if path ∈ fs then
        some ⟨cfg.files.map
          (fun e => if e.1 = lang then (e.1, e.2.erase path) else e),
          cfg.schemaFile⟩
      else none

/-- Render one finding as a line of the report. -/
def renderFinding : Finding → String
  | .missingType t => "missing-type " ++ t
  | .missingField t f => "missing-field " ++ t ++ "." ++ f
  | .missingMethod t m => "missing-method " ++ t ++ "." ++ m
  | .behavioralMismatch lang d =>
      "behavioral-mismatch " ++ lang ++ " delta " ++
        toString d.num ++ "/" ++ toString d.den

/-- Modelled from the spec: the Report Assembler output, every finding as a
line followed by a summary line with the total count (validator.py is not
among the available source files). -/
def renderReport (fs : List Finding) : String :=
  (fs.map renderFinding).foldr (fun a b => a ++ "\x0a" ++ b)
    ("findings: " ++ toString fs.length)

/-- Carried state of a run: the accumulating findings list; the next run
starts over from an empty list. -/
structure RunState where
  findings : List Finding

/-- Modelled from the spec: one validate run as a linear pipeline over the
loaded specification, the extracted source unit and the behavioral case
outputs; the findings accumulator is reset at the start, so nothing of the
incoming state flows into the report (validator.py is not among the
available source files). -/
def runValidate (spec : List TypeSpec) (unit : List DeclaredType)
    (cases : List (BehavioralCase × List (String × ℚ))) (s : RunState) :
    String × RunState :=
  let fs := compareStructural spec unit
    ++ (cases.map (fun c => runBehavioralCase c.1 c.2)).flatten
  let s1 : RunState := ⟨fs⟩
  (renderReport s1.findings, s1)

end validator

/-! Helper lemmas -/

theorem floor_natCast_add_half (n : ℕ) : ⌊(n : ℚ) + 1 / 2⌋ = (n : ℤ) := by
  rw [Int.floor_eq_iff]
  push_cast
  constructor <;> linarith

theorem castUInt_div_mul_roundtrip (n : ℕ) :
    castUInt ((n : ℚ) / 255 * 255 + 1 / 2) = n := by
  rw [castUInt, div_mul_cancel₀ _ (by norm_num : (255 : ℚ) ≠ 0),
    floor_natCast_add_half, Int.toNat_natCast]

theorem intToUint_uintToInt (n : ℕ) (h : n < 2 ^ 32) :
    intToUint (uintToInt n) = n := by
  simp only [intToUint, uintToInt]
  split <;> omega

/-- C2: for every Point value, the serialized JSON object carries a type
discriminator key (type for the geo variant, dtype for the session_cpp
variant) whose value is the string Point, a string-valued guid key, and
numeric x, y and z keys equal to the coordinates of the point. -/
theorem point_to_json_data_shape (p : geo.Point) (q : session_cpp.Point) :
    (geo.Point.to_json_data p).lookup "type" = some (.str "Point") ∧
    (geo.Point.to_json_data p).lookup "guid" = some (.str p.guid) ∧
    (geo.Point.to_json_data p).lookup "x" = some (.num p.x) ∧
    (geo.Point.to_json_data p).lookup "y" = some (.num p.y) ∧
    (geo.Point.to_json_data p).lookup "z" = some (.num p.z) ∧
    (session_cpp.Point.to_json_data q).lookup "dtype" = some (.str "Point") ∧
    (session_cpp.Point.to_json_data q).lookup "guid" = some (.str q.guid) ∧
    (session_cpp.Point.to_json_data q).lookup "x" = some (.num q.x) ∧
    (session_cpp.Point.to_json_data q).lookup "y" = some (.num q.y) ∧
    (session_cpp.Point.to_json_data q).lookup "z" = some (.num q.z) :=
  ⟨rfl, rfl, rfl, rfl, rfl, rfl, rfl, rfl, rfl, rfl⟩

/-- C3: for the same Point value, the session_cpp serializer emits the
discriminator key dtype while the geo serializer emits the discriminator key
type, so the two serializations are not equal as JSON objects. -/
theorem point_json_discriminator_mismatch (p : geo.Point)
    (q : session_cpp.Point) (hx : p.x = q.x) (hy : p.y = q.y)
    (hz : p.z = q.z) (hg : p.guid = q.guid) (hn : p.name = q.name)
    (hw : p.width = q.width) :
    (session_cpp.Point.to_json_data q).lookup "dtype" = some (.str "Point") ∧
    (geo.Point.to_json_data p).lookup "dtype" = none ∧
    (geo.Point.to_json_data p).lookup "type" = some (.str "Point") ∧
    geo.Point.to_json_data p ≠ session_cpp.Point.to_json_data q := by
  refine ⟨rfl, rfl, rfl, fun h => ?_⟩
  have h1 : (geo.Point.to_json_data p).lookup "dtype" = none := rfl
  have h2 : (session_cpp.Point.to_json_data q).lookup "dtype" =
      some (.str "Point") := rfl
  rw [h, h2] at h1
  exact Option.noConfusion h1

/-- Witness for C3 at a concrete pair of points sharing coordinates, guid,
name and width. -/
theorem point_json_discriminator_mismatch_witness :
    geo.Point.to_json_data ⟨"g1", "n1", 1, 2, 3, 1, geo.Color.white⟩ ≠
      session_cpp.Point.to_json_data
        ⟨1, 2, 3, "g1", "n1", session.Color.white, 1⟩ :=
  (point_json_discriminator_mismatch _ _ rfl rfl rfl rfl rfl rfl).2.2.2

/-- C4: in all three Color variants, despite the differing alpha scales, the
white color converts to the float array of four ones. -/
theorem white_to_float_array_ones :
    geo_impl.Color.white.to_float_array = (1, 1, 1, 1) ∧
    session_cpp.Color.white.to_float_array = (1, 1, 1, 1) ∧
    session.Color.white.to_float_array = (1, 1, 1, 1) := by
  refine ⟨?_, ?_, ?_⟩ <;>
    norm_num [geo_impl.Color.white, geo_impl.Color.make,
      geo_impl.Color.to_float_array, session_cpp.Color.white,
      session_cpp.Color.make, session_cpp.Color.to_float_array,
      session.Color.white, session.Color.to_float_array, Prod.ext_iff]

/-- C8: the geo Point JSON round trip preserves the x, y, z, guid, name and
width fields. -/
theorem geo_point_json_roundtrip (p : geo.Point) :
    ∃ q, geo.Point.from_json_data (geo.Point.to_json_data p) = some q ∧
      q.x = p.x ∧ q.y = p.y ∧ q.z = p.z ∧ q.guid = p.guid ∧
      q.name = p.name ∧ q.width = p.width :=
  ⟨⟨p.guid, p.name, p.x, p.y, p.z, p.width,
    ⟨"white", p.pointcolor.guid, intToUint (uintToInt p.pointcolor.r),
      intToUint (uintToInt p.pointcolor.g),
      intToUint (uintToInt p.pointcolor.b),
      intToUint (uintToInt p.pointcolor.a)⟩⟩,
    rfl, rfl, rfl, rfl, rfl, rfl, rfl⟩

/-- C9: for a session_cpp Color whose components all lie in 0..255, feeding
the four elements of to_float_array back through from_float recovers exactly
the same r, g, b and a components. -/
theorem color_float_array_roundtrip (c : session_cpp.Color)
    (hr : c.r ≤ 255) (hg : c.g ≤ 255) (hb : c.b ≤ 255) (ha : c.a ≤ 255) :
    (session_cpp.Color.from_float c.to_float_array.1 c.to_float_array.2.1
      c.to_float_array.2.2.1 c.to_float_array.2.2.2).r = c.r ∧
    (session_cpp.Color.from_float c.to_float_array.1 c.to_float_array.2.1
      c.to_float_array.2.2.1 c.to_float_array.2.2.2).g = c.g ∧
    (session_cpp.Color.from_float c.to_float_array.1 c.to_float_array.2.1
      c.to_float_array.2.2.1 c.to_float_array.2.2.2).b = c.b ∧
    (session_cpp.Color.from_float c.to_float_array.1 c.to_float_array.2.1
      c.to_float_array.2.2.1 c.to_float_array.2.2.2).a = c.a := by
  simp only [session_cpp.Color.to_float_array, session_cpp.Color.from_float,
    session_cpp.Color.make]
  exact ⟨castUInt_div_mul_roundtrip c.r, castUInt_div_mul_roundtrip c.g,
    castUInt_div_mul_roundtrip c.b, castUInt_div_mul_roundtrip c.a⟩

/-- Witness for C9 at the white color, whose components are all 255. -/
theorem color_float_array_roundtrip_witness :
    (session_cpp.Color.from_float
      session_cpp.Color.white.to_float_array.1
      session_cpp.Color.white.to_float_array.2.1
      session_cpp.Color.white.to_float_array.2.2.1
      session_cpp.Color.white.to_float_array.2.2.2).r =
        session_cpp.Color.white.r ∧
    (session_cpp.Color.from_float
      session_cpp.Color.white.to_float_array.1
      session_cpp.Color.white.to_float_array.2.1
      session_cpp.Color.white.to_float_array.2.2.1
      session_cpp.Color.white.to_float_array.2.2.2).g =
        session_cpp.Color.white.g ∧
    (session_cpp.Color.from_float
      session_cpp.Color.white.to_float_array.1
      session_cpp.Color.white.to_float_array.2.1
      session_cpp.Color.white.to_float_array.2.2.1
      session_cpp.Color.white.to_float_array.2.2.2).b =
        session_cpp.Color.white.b ∧
    (session_cpp.Color.from_float
      session_cpp.Color.white.to_float_array.1
      session_cpp.Color.white.to_float_array.2.1
      session_cpp.Color.white.to_float_array.2.2.1
      session_cpp.Color.white.to_float_array.2.2.2).a =
        session_cpp.Color.white.a :=
  color_float_array_roundtrip session_cpp.Color.white
    (by decide) (by decide) (by decide) (by decide)

/-- C10: the session_cpp Color serializer always writes the literal string
white as the name value; the JSON round trip therefore preserves r, g, b, a
and guid but returns a color named white no matter the original name. -/
theorem color_json_name_always_white (c : session_cpp.Color)
    (hr : c.r < 2 ^ 32) (hg : c.g < 2 ^ 32) (hb : c.b < 2 ^ 32)
    (ha : c.a < 2 ^ 32) :
    (session_cpp.Color.to_json_data c).lookup "name" =
      some (.str "white") ∧
    ∃ q, session_cpp.Color.from_json_data
        (session_cpp.Color.to_json_data c) = some q ∧
      q.r = c.r ∧ q.g = c.g ∧ q.b = c.b ∧ q.a = c.a ∧ q.guid = c.guid ∧
      q.name = "white" :=
  ⟨rfl, ⟨⟨"white", c.guid, intToUint (uintToInt c.r),
      intToUint (uintToInt c.g), intToUint (uintToInt c.b),
      intToUint (uintToInt c.a)⟩, rfl,
    intToUint_uintToInt c.r hr, intToUint_uintToInt c.g hg,
    intToUint_uintToInt c.b hb, intToUint_uintToInt c.a ha, rfl, rfl⟩⟩

/-- Witness for C10 at the black color, whose name field is black and not
white; its serialization still carries the name white and the round trip
returns a color named white. -/
theorem color_json_name_always_white_witness :
    session_cpp.Color.black.name = "black" ∧
    ((session_cpp.Color.to_json_data session_cpp.Color.black).lookup "name" =
      some (.str "white") ∧
    ∃ q, session_cpp.Color.from_json_data
        (session_cpp.Color.to_json_data session_cpp.Color.black) = some q ∧
      q.r = session_cpp.Color.black.r ∧ q.g = session_cpp.Color.black.g ∧
      q.b = session_cpp.Color.black.b ∧ q.a = session_cpp.Color.black.a ∧
      q.guid = session_cpp.Color.black.guid ∧ q.name = "white") :=
  ⟨rfl, color_json_name_always_white session_cpp.Color.black
    (by decide) (by decide) (by decide) (by decide)⟩

/-- C1: two numeric results agree exactly when the absolute difference is at
most the tolerance of the case; for the point_distance case with tolerance
ten to the minus ninth, a language outputting 5.0001 against the expected 5
yields exactly one behavioral-mismatch finding naming that language and the
numeric delta. -/
theorem behavioral_tolerance_agreement :
    (∀ a b tol : ℚ, validator.agrees a b tol = true ↔ |a - b| ≤ tol) ∧
    validator.runBehavioralCase validator.pointDistanceCase
      [("python", 5), ("rust", 5), ("cpp", 50001 / 10000)] =
      [validator.Finding.behavioralMismatch "cpp" (1 / 10000)] := by
  constructor
  · intro a b tol
    simp [validator.agrees]
  · norm_num [validator.runBehavioralCase, validator.pointDistanceCase,
      validator.agrees, List.filterMap_cons, abs_sub_le_iff, abs_sub_comm]

/-- When every required type is present and every required field is present,
the structural findings are exactly the missing-method findings, in
specification order. -/
theorem compareStructural_eq_missing_map
    (spec : List validator.TypeSpec) (unit : List validator.DeclaredType)
    (h1 : ∀ ts ∈ spec, (validator.findType unit ts.name).isSome = true)
    (h2 : ∀ ts ∈ spec, (validator.findType unit ts.name).all
      (fun d => ts.fields.all (fun f => d.fields.contains f)) = true) :
    validator.compareStructural spec unit =
      (validator.missingMethodPairs spec unit).map
        (fun pr => validator.Finding.missingMethod pr.1 pr.2) := by
  induction spec with
  | nil => rfl
  | cons ts rest ih =>
    have hts1 := h1 ts (List.mem_cons_self ts rest)
    have hts2 := h2 ts (List.mem_cons_self ts rest)
    obtain ⟨d, hd⟩ := Option.isSome_iff_exists.mp hts1
    rw [hd] at hts2
    simp only [Option.all_some] at hts2
    have hfields : ts.fields.filter (fun f => !d.fields.contains f) = [] := by
      rw [List.filter_eq_nil_iff]
      intro f hf
      have hcf := List.all_eq_true.mp hts2 f hf
      simp_all
    simp only [validator.compareStructural, validator.missingMethodPairs,
      validator.compareType, hd, hfields, List.map_nil, List.nil_append,
      List.map_append, List.map_map]
    rw [ih (fun t ht => h1 t (List.mem_cons_of_mem _ ht))
      (fun t ht => h2 t (List.mem_cons_of_mem _ ht))]
    rfl

/-- C5: when the source unit declares every required type and every required
field, and exactly one required method, named m on type t, is missing, the
Structural Comparator reports exactly one finding, the missing-method finding
naming that method, and the run exits with code 1. -/
theorem comparator_single_missing_method
    (spec : List validator.TypeSpec) (unit : List validator.DeclaredType)
    (t m : String)
    (h1 : ∀ ts ∈ spec, (validator.findType unit ts.name).isSome = true)
    (h2 : ∀ ts ∈ spec, (validator.findType unit ts.name).all
      (fun d => ts.fields.all (fun f => d.fields.contains f)) = true)
    (h3 : validator.missingMethodPairs spec unit = [(t, m)]) :
    validator.compareStructural spec unit =
      [validator.Finding.missingMethod t m] ∧
    validator.exitCode (validator.compareStructural spec unit) = 1 := by
  rw [compareStructural_eq_missing_map spec unit h1 h2, h3]
  exact ⟨rfl, rfl⟩

/-- Witness for C5: the specification requires Point with fields x, y, z and
method distance_to; the unit declares Point with those fields but no
distance_to method. -/
theorem comparator_single_missing_method_witness :
    validator.compareStructural
      [⟨"Point", ["x", "y", "z"], ["distance_to"]⟩]
      [⟨"Point", ["x", "y", "z"], []⟩] =
      [validator.Finding.missingMethod "Point" "distance_to"] ∧
    validator.exitCode (validator.compareStructural
      [⟨"Point", ["x", "y", "z"], ["distance_to"]⟩]
      [⟨"Point", ["x", "y", "z"], []⟩]) = 1 :=
  comparator_single_missing_method _ _ "Point" "distance_to"
    (by decide) (by decide) (by decide)

/-- A successful language lookup in the configuration names an entry of the
file list. -/
theorem lookupFiles_mem (l : List (String × List String)) (lang : String)
    (fs : List String) (h : validator.lookupFiles l lang = some fs) :
    (lang, fs) ∈ l := by
  induction l with
  | nil => exact absurd h (by simp [validator.lookupFiles])
  | cons e rest ih =>
    obtain ⟨k, v⟩ := e
    simp only [validator.lookupFiles] at h
    split at h
    · rename_i heq
      obtain rfl := Option.some.inj h
      subst heq
      exact List.mem_cons_self _ _
    · exact List.mem_cons_of_mem _ (ih h)

/-- Updating the file list of one language commutes with looking that
language up. -/
theorem lookupFiles_map_update (l : List (String × List String))
    (lang : String) (g : List String → List String) :
    validator.lookupFiles
      (l.map (fun e => if e.1 = lang then (e.1, g e.2) else e)) lang =
      (validator.lookupFiles l lang).map g := by
  induction l with
  | nil => rfl
  | cons e rest ih =>
    obtain ⟨k, v⟩ := e
    simp only [List.map_cons]
    by_cases hk : k = lang
    · subst hk
      rw [if_pos rfl]
      simp [validator.lookupFiles]
    · rw [if_neg hk]
      simp [validator.lookupFiles, hk, ih]

/-- A map whose function fixes every element of the list is the identity. -/
theorem map_fix_id {α : Type} (l : List α) (f : α → α)
    (h : ∀ a ∈ l, f a = a) : l.map f = l := by
  induction l with
  | nil => rfl
  | cons x xs ih =>
    rw [List.map_cons, h x (List.mem_cons_self x xs),
      ih (fun a ha => h a (List.mem_cons_of_mem _ ha))]

/-- C6: for a configuration whose language is listed and does not yet carry
the path, running add for that language and path and then remove for the
same language and path returns the configuration document to its original
content. -/
theorem config_add_remove_roundtrip (cfg : validator.Config)
    (lang path : String)
    (h0 : (validator.lookupFiles cfg.files lang).isSome = true)
    (h1 : ∀ e ∈ cfg.files, e.1 = lang → path ∉ e.2) :
    (validator.addPath cfg lang path).bind
      (fun c => validator.removePath c lang path) = some cfg := by
  obtain ⟨fs, hfs⟩ := Option.isSome_iff_exists.mp h0
  have hmem : (lang, fs) ∈ cfg.files := lookupFiles_mem _ _ _ hfs
  have hpath : path ∉ fs := h1 (lang, fs) hmem rfl
  have hfix : ∀ e ∈ cfg.files,
      ((fun e : String × List String =>
          if e.1 = lang then (e.1, e.2.erase path) else e) ∘
        (fun e : String × List String =>
          if e.1 = lang then (e.1, e.2 ++ [path]) else e)) e = e := by
    intro e he
    by_cases he1 : e.1 = lang
    · simp only [Function.comp_apply, if_pos he1,
        List.erase_append_right [path] (h1 e he he1),
        List.erase_cons_head path [], List.append_nil]
    · simp only [Function.comp_apply, if_neg he1]
  have hadd : validator.addPath cfg lang path = some ⟨cfg.files.map
      (fun e => if e.1 = lang then (e.1, e.2 ++ [path]) else e),
      cfg.schemaFile⟩ := by
    simp only [validator.addPath, hfs, if_neg hpath]
  have hlk : validator.lookupFiles (cfg.files.map
      (fun e => if e.1 = lang then (e.1, e.2 ++ [path]) else e)) lang =
      some (fs ++ [path]) := by
    rw [lookupFiles_map_update cfg.files lang (fun x => x ++ [path]), hfs]
    rfl
  have hrem : validator.removePath ⟨cfg.files.map
      (fun e => if e.1 = lang then (e.1, e.2 ++ [path]) else e),
      cfg.schemaFile⟩ lang path = some cfg := by
    simp only [validator.removePath, hlk,
      if_pos (show path ∈ fs ++ [path] by simp)]
    rw [List.map_map, map_fix_id cfg.files _ hfix]
  rw [hadd, Option.some_bind, hrem]

/-- Witness for C6 at a concrete configuration: adding then removing a new
path in the python file list restores the document. -/
theorem config_add_remove_roundtrip_witness :
    (validator.addPath
        ⟨[("python", ["a.py"]), ("cpp", ["b.hpp"])], "spec.json"⟩
        "python" "c.py").bind
      (fun c => validator.removePath c "python" "c.py") =
      some ⟨[("python", ["a.py"]), ("cpp", ["b.hpp"])], "spec.json"⟩ :=
  config_add_remove_roundtrip
    ⟨[("python", ["a.py"]), ("cpp", ["b.hpp"])], "spec.json"⟩
    "python" "c.py" (by decide) (by decide)

/-- C7: one validate run is a pure function of the loaded specification, the
extracted source unit and the behavioral outputs; running it a second time
on unchanged inputs, from whatever state the first run left behind, yields a
byte-identical report. -/
theorem validate_report_deterministic (spec : List validator.TypeSpec)
    (unit : List validator.DeclaredType)
    (cases : List (validator.BehavioralCase × List (String × ℚ)))
    (s t : validator.RunState) :
    (validator.runValidate spec unit cases
        (validator.runValidate spec unit cases s).2).1 =
      (validator.runValidate spec unit cases s).1 ∧
    (validator.runValidate spec unit cases s).1 =
      (validator.runValidate spec unit cases t).1 :=
  ⟨rfl, rfl⟩
